import Mathlib

/-!
Verification of the soda3-query SoQL query-builder core.

The definitions below are a shallow embedding of the TypeScript source:
`src/builder/QueryBuilder.ts`, `src/utils/validation.ts` and the value
formatting utilities (`escapeString`, `formatValue`, `formatWhereValue`).
JavaScript strings are modelled as Lean `String` (character-wise where the
source uses position-based library loops), JavaScript numbers appearing in
the claims as `Int`, thrown exceptions as `Except SodaError`, and the
`undefined`/`null` possibilities of optional fields as `Option`.  The
truthiness tests of the source (`if (whereClause)`, `if (!direction)`,
`condition.isRaw && condition.rawCondition`) are modelled by explicit
comparisons with the empty string, which is the only falsy value of string
type that can reach them.
-/

/-- The single-quote character (codepoint 39), used by the value formatter. -/
def squoteChar : Char := Char.ofNat 39

/-- A one-character string holding a single quote. -/
def squote : String := String.singleton squoteChar

/-- Error kinds raised by the builder core (the source throws `Error` with a
message; the spec names these kinds). -/
inductive SodaError where
  | invalidOperator (op : String)
  | invalidDirection (d : String)
  | invalidInValue
  | notBound
deriving DecidableEq, Repr

/-- `WhereValue` from `src/types/query.ts`:
`string | number | boolean | null | string[] | number[]`. -/
inductive WhereValue where
  | vstr (s : String)
  | vnum (n : Int)
  | vbool (b : Bool)
  | vnull
  | vstrArr (l : List String)
  | vnumArr (l : List Int)
deriving DecidableEq, Repr

/-- `Array.isArray(value)` on a `WhereValue`. -/
def WhereValue.isSequence : WhereValue → Bool
  | .vstrArr _ => true
  | .vnumArr _ => true
  | _ => false

/-- `escapeString` from `src/utils/encoding.ts`:
`value.replace(/'/g, "''")`, i.e. every single-quote character is replaced
by two of them and every other character is kept (modelled character-wise). -/
def escapeString (value : String) : String :=
  String.mk (value.data.flatMap (fun c => if c = squoteChar then [squoteChar, squoteChar] else [c]))

/-- `Array.join(sep)` / the join used by the clause renderers. -/
def joinWith (sep : String) : List String → String
  | [] => ""
  | [x] => x
  | x :: y :: xs => x ++ sep ++ joinWith sep (y :: xs)

/-- `formatValue` from `src/utils/encoding.ts`: dispatch on the runtime type
of the value — null, boolean, number, array (numbers bare, other elements
quoted and escaped, comma-joined in parentheses; empty array renders `()`),
and the string default (single-quoted, escaped). -/
def formatValue : WhereValue → String
  | .vnull => "NULL"
  | .vbool b => if b then "true" else "false"
  | .vnum n => toString n
  | .vstrArr l =>
      if l.isEmpty then "()"
      else "(" ++ joinWith "," (l.map (fun v => squote ++ escapeString v ++ squote)) ++ ")"
  | .vnumArr l =>
      if l.isEmpty then "()"
      else "(" ++ joinWith "," (l.map (fun v => toString v)) ++ ")"
  | .vstr s => squote ++ escapeString s ++ squote

/-- `formatWhereValue` from `src/utils/encoding.ts`: IS NULL / IS NOT NULL
suppress the value, IN requires an array (else the `IN operator requires an
array value` error), everything else delegates to `formatValue`. -/
def formatWhereValue (operator : String) (value : WhereValue) : Except SodaError String :=
  if operator = "IS NULL" ∨ operator = "IS NOT NULL" then .ok ""
  else if operator = "IN" then
    if value.isSequence then .ok (formatValue value) else .error .invalidInValue
  else .ok (formatValue value)

/-- The closed operator set of `validateOperator` in `src/utils/validation.ts`. -/
def validOperators : List String :=
  ["=", "!=", "<", ">", "<=", ">=", "LIKE", "IN", "IS NULL", "IS NOT NULL"]

/-- `validateOperator` from `src/utils/validation.ts`: membership in the
closed operator set. -/
def validateOperator (operator : String) : Bool :=
  validOperators.contains operator

/-- `String.prototype.toLowerCase()` modelled character-wise. -/
def toLowerString (s : String) : String := String.mk (s.data.map Char.toLower)

/-- `normalizeOrderDirection` from `src/utils/validation.ts`.  The source
tests `if (!direction)`, which is true for `undefined` (here `none`) and for
the empty string; otherwise it lower-cases and accepts exactly `asc` and
`desc`, throwing the invalid-direction error for anything else. -/
def normalizeOrderDirection (direction : Option String) : Except SodaError String :=
  match direction with
  | none => .ok "ASC"
  | some d =>
    if d = "" then .ok "ASC"
    else
      let normalized := toLowerString d
      if normalized = "asc" then .ok "ASC"
      else if normalized = "desc" then .ok "DESC"
      else .error (.invalidDirection d)

/-- `SoQLQueryParams` from `src/types/query.ts` (field `pSelect` stands for
the `$select` key and so on; a `none` field is an absent key). -/
structure SoQLQueryParams where
  pSelect : Option String := none
  pWhere : Option String := none
  pOrder : Option String := none
  pGroup : Option String := none
  pHaving : Option String := none
  pLimit : Option Int := none
  pOffset : Option Int := none
deriving DecidableEq, Repr

/-- `SodaResponse` from `src/types/response.ts` with rows kept opaque. -/
structure SodaResponse where
  data : List String
deriving DecidableEq, Repr

/-- The bound client collaborator, abstracted to its `executeQuery`
operation (resource id and rendered parameters to a response or failure). -/
def SodaTransport : Type := String → SoQLQueryParams → Except SodaError SodaResponse

/-- Internal state for WHERE conditions (`WhereCondition` in
`QueryBuilder.ts`); the optional `isRaw`/`rawCondition` fields default to
the falsy values `false`/`""`. -/
structure WhereCondition where
  column : String
  operator : String
  value : WhereValue
  logicalOperator : String
  isRaw : Bool := false
  rawCondition : String := ""
deriving DecidableEq, Repr

/-- Internal state for ORDER BY conditions. -/
structure OrderByCondition where
  column : String
  direction : String
deriving DecidableEq, Repr

/-- Internal state for HAVING conditions. -/
structure HavingCondition where
  column : String
  operator : String
  value : WhereValue
  logicalOperator : String
deriving DecidableEq, Repr

/-- The `string | string[]` argument type of `select` and `groupBy`. -/
inductive StrOrArr where
  | str (s : String)
  | arr (l : List String)
deriving DecidableEq, Repr

/-- The builder state of `QueryBuilder` (all fields at their initial
values for a freshly constructed builder). -/
structure QueryBuilder where
  selectFields : Option (List String) := none
  whereConditions : List WhereCondition := []
  orderByConditions : List OrderByCondition := []
  groupByFields : Option (List String) := none
  havingConditions : List HavingCondition := []
  limitValue : Option Int := none
  offsetValue : Option Int := none
  clientBinding : Option (SodaTransport × String) := none

/-- `new QueryBuilder()`. -/
def QueryBuilder.empty : QueryBuilder := {}

/-- `bind(client, resourceId)`. -/
def QueryBuilder.bind (b : QueryBuilder) (client : SodaTransport) (resourceId : String) :
    QueryBuilder :=
  { b with clientBinding := some (client, resourceId) }

/-- `select(fields)`: an array replaces the selection (empty array clears
it to `null`), a single string is wrapped in a one-element array. -/
def QueryBuilder.select (b : QueryBuilder) (fields : StrOrArr) : QueryBuilder :=
  match fields with
  | .arr l => { b with selectFields := if 0 < l.length then some l else none }
  | .str s => { b with selectFields := some [s] }

/-- `where(column, operator, value)`: validates the operator, rewrites
`=`/`!=` with a null value to `IS NULL`/`IS NOT NULL`, then appends an
AND-joined structured condition. -/
def QueryBuilder.«where» (b : QueryBuilder) (column operator : String) (value : WhereValue) :
    Except SodaError QueryBuilder :=
  if validateOperator operator = false then .error (.invalidOperator operator)
  else
    let finalOperator :=
      if operator = "=" ∧ value = .vnull then "IS NULL"
      else if operator = "!=" ∧ value = .vnull then "IS NOT NULL"
      else operator
    .ok { b with whereConditions := b.whereConditions ++
      [{ column := column, operator := finalOperator, value := value, logicalOperator := "AND" }] }

/-- `whereRaw(condition)`: appends a raw condition with placeholder column
`""`, operator `=`, value null and join token AND (the source computes
`length > 0 ? 'AND' : 'AND'`, which is AND either way). -/
def QueryBuilder.whereRaw (b : QueryBuilder) (condition : String) : QueryBuilder :=
  { b with whereConditions := b.whereConditions ++
    [{ column := "", operator := "=", value := .vnull, logicalOperator := "AND",
       isRaw := true, rawCondition := condition }] }

/-- `andWhere(column, operator, value)`: validates and appends an AND-joined
structured condition (no null rewrite in the source). -/
def QueryBuilder.andWhere (b : QueryBuilder) (column operator : String) (value : WhereValue) :
    Except SodaError QueryBuilder :=
  if validateOperator operator = false then .error (.invalidOperator operator)
  else .ok { b with whereConditions := b.whereConditions ++
    [{ column := column, operator := operator, value := value, logicalOperator := "AND" }] }

/-- `andWhereRaw(condition)`. -/
def QueryBuilder.andWhereRaw (b : QueryBuilder) (condition : String) : QueryBuilder :=
  { b with whereConditions := b.whereConditions ++
    [{ column := "", operator := "=", value := .vnull, logicalOperator := "AND",
       isRaw := true, rawCondition := condition }] }

/-- `orWhere(column, operator, value)`: validates and appends an OR-joined
structured condition (no null rewrite in the source). -/
def QueryBuilder.orWhere (b : QueryBuilder) (column operator : String) (value : WhereValue) :
    Except SodaError QueryBuilder :=
  if validateOperator operator = false then .error (.invalidOperator operator)
  else .ok { b with whereConditions := b.whereConditions ++
    [{ column := column, operator := operator, value := value, logicalOperator := "OR" }] }

/-- `orWhereRaw(condition)`. -/
def QueryBuilder.orWhereRaw (b : QueryBuilder) (condition : String) : QueryBuilder :=
  { b with whereConditions := b.whereConditions ++
    [{ column := "", operator := "=", value := .vnull, logicalOperator := "OR",
       isRaw := true, rawCondition := condition }] }

/-- `orderBy(column, direction?)`: normalizes the direction (which may
throw) and appends the pair. -/
def QueryBuilder.orderBy (b : QueryBuilder) (column : String) (direction : Option String) :
    Except SodaError QueryBuilder :=
  match normalizeOrderDirection direction with
  | .error e => .error e
  | .ok nd => .ok { b with orderByConditions := b.orderByConditions ++
      [{ column := column, direction := nd }] }

/-- `groupBy(columns)`: same replace-not-append semantics as `select`. -/
def QueryBuilder.groupBy (b : QueryBuilder) (columns : StrOrArr) : QueryBuilder :=
  match columns with
  | .arr l => { b with groupByFields := if 0 < l.length then some l else none }
  | .str s => { b with groupByFields := some [s] }

/-- `having(column, operator, value)`. -/
def QueryBuilder.having (b : QueryBuilder) (column operator : String) (value : WhereValue) :
    Except SodaError QueryBuilder :=
  if validateOperator operator = false then .error (.invalidOperator operator)
  else .ok { b with havingConditions := b.havingConditions ++
    [{ column := column, operator := operator, value := value, logicalOperator := "AND" }] }

/-- `andHaving(column, operator, value)`. -/
def QueryBuilder.andHaving (b : QueryBuilder) (column operator : String) (value : WhereValue) :
    Except SodaError QueryBuilder :=
  if validateOperator operator = false then .error (.invalidOperator operator)
  else .ok { b with havingConditions := b.havingConditions ++
    [{ column := column, operator := operator, value := value, logicalOperator := "AND" }] }

/-- `orHaving(column, operator, value)`. -/
def QueryBuilder.orHaving (b : QueryBuilder) (column operator : String) (value : WhereValue) :
    Except SodaError QueryBuilder :=
  if validateOperator operator = false then .error (.invalidOperator operator)
  else .ok { b with havingConditions := b.havingConditions ++
    [{ column := column, operator := operator, value := value, logicalOperator := "OR" }] }

/-- `limit(count)`: stored verbatim. -/
def QueryBuilder.limit (b : QueryBuilder) (count : Int) : QueryBuilder :=
  { b with limitValue := some count }

/-- `offset(count)`: stored verbatim. -/
def QueryBuilder.offset (b : QueryBuilder) (count : Int) : QueryBuilder :=
  { b with offsetValue := some count }

/-- One loop iteration body of `buildWhereClause`: a condition with truthy
`isRaw && rawCondition` contributes the raw string; otherwise
`column operator` with the formatted value appended unless the operator is
IS NULL / IS NOT NULL. -/
def renderWhereCondition (c : WhereCondition) : Except SodaError String :=
  if c.isRaw = true ∧ c.rawCondition ≠ "" then .ok c.rawCondition
  else if c.operator = "IS NULL" ∨ c.operator = "IS NOT NULL" then
    .ok (c.column ++ " " ++ c.operator)
  else
    match formatWhereValue c.operator c.value with
    | .error e => .error e
    | .ok fv => .ok (c.column ++ " " ++ c.operator ++ " " ++ fv)

/-- The parts pushed by `buildWhereClause` for the conditions after the
first: each pushes its `logicalOperator` token and then its rendering. -/
def wherePartsTail : List WhereCondition → Except SodaError (List String)
  | [] => .ok []
  | c :: rest =>
    match renderWhereCondition c with
    | .error e => .error e
    | .ok s =>
      match wherePartsTail rest with
      | .error e => .error e
      | .ok ts => .ok (c.logicalOperator :: s :: ts)

/-- `buildWhereClause()`: `undefined` (here `none`) for no conditions, else
the parts list (first condition without a join token) joined by spaces. -/
def buildWhereClause (conds : List WhereCondition) : Except SodaError (Option String) :=
  match conds with
  | [] => .ok none
  | c :: rest =>
    match renderWhereCondition c with
    | .error e => .error e
    | .ok s =>
      match wherePartsTail rest with
      | .error e => .error e
      | .ok ts => .ok (some (joinWith " " (s :: ts)))

/-- One loop iteration body of `buildHavingClause` (structured-only). -/
def renderHavingCondition (c : HavingCondition) : Except SodaError String :=
  if c.operator = "IS NULL" ∨ c.operator = "IS NOT NULL" then
    .ok (c.column ++ " " ++ c.operator)
  else
    match formatWhereValue c.operator c.value with
    | .error e => .error e
    | .ok fv => .ok (c.column ++ " " ++ c.operator ++ " " ++ fv)

/-- The parts pushed by `buildHavingClause` after the first condition. -/
def havingPartsTail : List HavingCondition → Except SodaError (List String)
  | [] => .ok []
  | c :: rest =>
    match renderHavingCondition c with
    | .error e => .error e
    | .ok s =>
      match havingPartsTail rest with
      | .error e => .error e
      | .ok ts => .ok (c.logicalOperator :: s :: ts)

/-- `buildHavingClause()`: same algorithm as the WHERE clause, structured
conditions only. -/
def buildHavingClause (conds : List HavingCondition) : Except SodaError (Option String) :=
  match conds with
  | [] => .ok none
  | c :: rest =>
    match renderHavingCondition c with
    | .error e => .error e
    | .ok s =>
      match havingPartsTail rest with
      | .error e => .error e
      | .ok ts => .ok (some (joinWith " " (s :: ts)))

/-- `buildOrderByClause()`: `undefined` when empty, else
`column direction` pairs comma-joined. -/
def buildOrderByClause (conds : List OrderByCondition) : Option String :=
  if conds.isEmpty then none
  else some (joinWith "," (conds.map (fun c => c.column ++ " " ++ c.direction)))

/-- `buildGroupByClause()`: `undefined` when the fields are unset or empty,
else the fields comma-joined. -/
def buildGroupByClause (fields : Option (List String)) : Option String :=
  match fields with
  | none => none
  | some l => if l.isEmpty then none else some (joinWith "," l)

/-- The `$select` computation of `build()`:
`if (this.selectFields && this.selectFields.length > 0)` then the join. -/
def selectParam (fields : Option (List String)) : Option String :=
  match fields with
  | some l => if 0 < l.length then some (joinWith "," l) else none
  | none => none

/-- The `if (clause)` truthiness guard of `build()` applied to the
`string | undefined` clause results: both `undefined` and `""` are falsy. -/
def truthyString : Option String → Option String
  | none => none
  | some s => if s = "" then none else some s

/-- `build()`: renders the parameter mapping; the WHERE and HAVING clause
builders may throw (in that source order), all other clauses are total. -/
def QueryBuilder.build (b : QueryBuilder) : Except SodaError SoQLQueryParams :=
  match buildWhereClause b.whereConditions with
  | .error e => .error e
  | .ok whereClause =>
    match buildHavingClause b.havingConditions with
    | .error e => .error e
    | .ok havingClause =>
      .ok { pSelect := selectParam b.selectFields,
            pWhere := truthyString whereClause,
            pOrder := truthyString (buildOrderByClause b.orderByConditions),
            pGroup := truthyString (buildGroupByClause b.groupByFields),
            pHaving := truthyString havingClause,
            pLimit := b.limitValue,
            pOffset := b.offsetValue }

/-- `execute()`: fails with the not-bound error when no binding is present
(before `build()` is consulted), otherwise renders via `build()` and
delegates to the bound client. -/
def QueryBuilder.execute (b : QueryBuilder) : Except SodaError SodaResponse :=
  match b.clientBinding with
  | none => .error .notBound
  | some (client, resourceId) =>
    match b.build with
    | .error e => .error e
    | .ok queryParams => client resourceId queryParams

/-! ### The rendering formula as the specification words it (for the
refinement comparison of claim C3) -/

/-- Modelled from the spec wording: for each condition emit either "the raw
string" (for raw conditions, with no caveat about empty raw strings) or
`column operator` followed by the formatted value unless the operator is
IS NULL / IS NOT NULL. -/
def renderWhereConditionSpec (c : WhereCondition) : Except SodaError String :=
  if c.isRaw = true then .ok c.rawCondition
  else if c.operator = "IS NULL" ∨ c.operator = "IS NOT NULL" then
    .ok (c.column ++ " " ++ c.operator)
  else
    match formatWhereValue c.operator c.value with
    | .error e => .error e
    | .ok fv => .ok (c.column ++ " " ++ c.operator ++ " " ++ fv)

/-- Spec-worded parts for the conditions after the first: join token then
the segment of `renderWhereConditionSpec`. -/
def wherePartsTailSpec : List WhereCondition → Except SodaError (List String)
  | [] => .ok []
  | c :: rest =>
    match renderWhereConditionSpec c with
    | .error e => .error e
    | .ok s =>
      match wherePartsTailSpec rest with
      | .error e => .error e
      | .ok ts => .ok (c.logicalOperator :: s :: ts)

/-- Spec-worded WHERE rendering: segments in append order, each condition
after the first preceded by its join token, all joined by single spaces. -/
def buildWhereClauseSpec (conds : List WhereCondition) : Except SodaError (Option String) :=
  match conds with
  | [] => .ok none
  | c :: rest =>
    match renderWhereConditionSpec c with
    | .error e => .error e
    | .ok s =>
      match wherePartsTailSpec rest with
      | .error e => .error e
      | .ok ts => .ok (some (joinWith " " (s :: ts)))


/-! ### Helper lemmas -/

lemma truthyString_ne_empty (o : Option String) : truthyString o ≠ some "" := by
  cases o with
  | none => simp [truthyString]
  | some s =>
    by_cases h : s = "" <;> simp [truthyString, h]

lemma joinWith_cons2 (sep x y : String) (xs : List String) :
    joinWith sep (x :: y :: xs) = x ++ sep ++ joinWith sep (y :: xs) := rfl

lemma joinWith_append2 (sep a b : String) (x : String) (l : List String) :
    joinWith sep (x :: (l ++ [a, b])) = joinWith sep (x :: l) ++ sep ++ a ++ sep ++ b := by
  induction l generalizing x with
  | nil => simp [joinWith, String.append_assoc]
  | cons y l ih =>
    have h1 : x :: ((y :: l) ++ [a, b]) = x :: y :: (l ++ [a, b]) := by simp
    rw [h1, joinWith_cons2, ih y, joinWith_cons2]
    simp [String.append_assoc]

lemma wherePartsTail_append (c : WhereCondition) (xs : List WhereCondition) (ts : List String)
    (h : wherePartsTail xs = .ok ts) :
    wherePartsTail (xs ++ [c]) =
      match renderWhereCondition c with
      | .error e => .error e
      | .ok s => .ok (ts ++ [c.logicalOperator, s]) := by
  induction xs generalizing ts with
  | nil =>
    simp only [wherePartsTail, Except.ok.injEq] at h
    subst h
    simp [wherePartsTail]
  | cons x xs ih =>
    simp only [List.cons_append, List.append_eq, wherePartsTail] at h ⊢
    cases hx : renderWhereCondition x with
    | error e => simp [hx] at h
    | ok s =>
      simp only [hx] at h ⊢
      cases ht : wherePartsTail xs with
      | error e => simp [ht] at h
      | ok ts' =>
        simp only [ht, Except.ok.injEq] at h
        subst h
        rw [ih ts' ht]
        cases renderWhereCondition c <;> simp

lemma buildWhereClause_single (c : WhereCondition) (s : String)
    (hc : renderWhereCondition c = .ok s) :
    buildWhereClause [c] = .ok (some s) := by
  simp [buildWhereClause, wherePartsTail, hc, joinWith]

lemma buildWhereClause_snoc_ok (conds : List WhereCondition) (w : String) (c : WhereCondition)
    (s : String) (h : buildWhereClause conds = .ok (some w))
    (hc : renderWhereCondition c = .ok s) :
    buildWhereClause (conds ++ [c]) = .ok (some (w ++ " " ++ c.logicalOperator ++ " " ++ s)) := by
  cases conds with
  | nil => simp [buildWhereClause] at h
  | cons c0 rest =>
    simp only [List.cons_append, List.append_eq, buildWhereClause] at h ⊢
    cases h0 : renderWhereCondition c0 with
    | error e => simp [h0] at h
    | ok s0 =>
      simp only [h0] at h ⊢
      cases ht : wherePartsTail rest with
      | error e => simp [ht] at h
      | ok ts =>
        simp only [ht, Except.ok.injEq, Option.some.injEq] at h
        rw [wherePartsTail_append c rest ts ht, hc]
        simp only [Except.ok.injEq, Option.some.injEq]
        rw [← h]
        exact joinWith_append2 " " c.logicalOperator s s0 ts

lemma buildWhereClause_snoc_err (conds : List WhereCondition) (w : Option String)
    (c : WhereCondition) (e : SodaError) (h : buildWhereClause conds = .ok w)
    (hc : renderWhereCondition c = .error e) :
    buildWhereClause (conds ++ [c]) = .error e := by
  cases conds with
  | nil => simp [buildWhereClause, hc]
  | cons c0 rest =>
    simp only [List.cons_append, List.append_eq, buildWhereClause] at h ⊢
    cases h0 : renderWhereCondition c0 with
    | error e0 => simp [h0] at h
    | ok s0 =>
      simp only [h0] at h ⊢
      cases ht : wherePartsTail rest with
      | error e0 => simp [ht] at h
      | ok ts =>
        rw [wherePartsTail_append c rest ts ht, hc]

lemma renderWhereCondition_eq_spec (c : WhereCondition)
    (h : c.isRaw = true → c.rawCondition ≠ "") :
    renderWhereCondition c = renderWhereConditionSpec c := by
  by_cases hr : c.isRaw = true
  · have hne := h hr
    simp [renderWhereCondition, renderWhereConditionSpec, hr, hne]
  · simp [renderWhereCondition, renderWhereConditionSpec, hr]

lemma wherePartsTail_eq_spec (conds : List WhereCondition)
    (h : ∀ c ∈ conds, c.isRaw = true → c.rawCondition ≠ "") :
    wherePartsTail conds = wherePartsTailSpec conds := by
  induction conds with
  | nil => rfl
  | cons c rest ih =>
    have hc := h c (by simp)
    have hrest : ∀ x ∈ rest, x.isRaw = true → x.rawCondition ≠ "" := by
      intro x hx
      exact h x (by simp [hx])
    simp only [wherePartsTail, wherePartsTailSpec,
      renderWhereCondition_eq_spec c hc, ih hrest]

lemma buildWhereClause_eq_spec (conds : List WhereCondition)
    (h : ∀ c ∈ conds, c.isRaw = true → c.rawCondition ≠ "") :
    buildWhereClause conds = buildWhereClauseSpec conds := by
  cases conds with
  | nil => rfl
  | cons c rest =>
    have hc := h c (by simp)
    have hrest : ∀ x ∈ rest, x.isRaw = true → x.rawCondition ≠ "" := by
      intro x hx
      exact h x (by simp [hx])
    simp only [buildWhereClause, buildWhereClauseSpec,
      renderWhereCondition_eq_spec c hc, wherePartsTail_eq_spec rest hrest]

/-! ### More helper lemmas about the mutators and `build` -/

lemma where_ok (b : QueryBuilder) (col op : String) (v : WhereValue)
    (hv : validateOperator op = true) :
    b.«where» col op v = .ok { b with whereConditions := b.whereConditions ++
      [{ column := col,
         operator := if op = "=" ∧ v = .vnull then "IS NULL"
           else if op = "!=" ∧ v = .vnull then "IS NOT NULL" else op,
         value := v, logicalOperator := "AND" }] } := by
  simp [QueryBuilder.«where», hv]

lemma andWhere_ok (b : QueryBuilder) (col op : String) (v : WhereValue)
    (hv : validateOperator op = true) :
    b.andWhere col op v = .ok { b with whereConditions := b.whereConditions ++
      [{ column := col, operator := op, value := v, logicalOperator := "AND" }] } := by
  simp [QueryBuilder.andWhere, hv]

lemma orWhere_ok (b : QueryBuilder) (col op : String) (v : WhereValue)
    (hv : validateOperator op = true) :
    b.orWhere col op v = .ok { b with whereConditions := b.whereConditions ++
      [{ column := col, operator := op, value := v, logicalOperator := "OR" }] } := by
  simp [QueryBuilder.orWhere, hv]

lemma having_ok (b : QueryBuilder) (col op : String) (v : WhereValue)
    (hv : validateOperator op = true) :
    b.having col op v = .ok { b with havingConditions := b.havingConditions ++
      [{ column := col, operator := op, value := v, logicalOperator := "AND" }] } := by
  simp [QueryBuilder.having, hv]

lemma build_ok_elim (b : QueryBuilder) (p : SoQLQueryParams) (h : b.build = .ok p) :
    p.pSelect = selectParam b.selectFields ∧
    p.pGroup = truthyString (buildGroupByClause b.groupByFields) ∧
    p.pLimit = b.limitValue ∧ p.pOffset = b.offsetValue ∧
    p.pWhere ≠ some "" ∧ p.pOrder ≠ some "" ∧ p.pGroup ≠ some "" ∧ p.pHaving ≠ some "" := by
  unfold QueryBuilder.build at h
  cases hw : buildWhereClause b.whereConditions with
  | error e => rw [hw] at h; cases h
  | ok wc =>
    rw [hw] at h
    cases hh : buildHavingClause b.havingConditions with
    | error e => rw [hh] at h; cases h
    | ok hc =>
      rw [hh] at h
      simp only [Except.ok.injEq] at h
      subst h
      refine ⟨rfl, rfl, rfl, rfl, ?_, ?_, ?_, ?_⟩ <;> exact truthyString_ne_empty _

lemma build_where_error (b : QueryBuilder) (e : SodaError)
    (h : buildWhereClause b.whereConditions = .error e) : b.build = .error e := by
  unfold QueryBuilder.build
  rw [h]

lemma execute_bound (b : QueryBuilder) (f : SodaTransport) (r : String) :
    (b.bind f r).execute =
      match b.build with
      | .error e => .error e
      | .ok p => f r p := rfl

lemma join_merge (w tok s : String) : w ++ " " ++ tok ++ " " ++ s = w ++ (" " ++ tok ++ " ") ++ s := by
  simp [String.append_assoc]

/-! ### Claim theorems -/

/-- Claim C4 (confirmed): `formatValue` renders every string single-quoted
with each literal single quote doubled and no other character changed,
numbers and booleans as bare unquoted tokens, null as `NULL`, every empty
sequence as `()`, and every non-empty sequence as its elements (numbers
bare, strings quoted and escaped) comma-joined and wrapped in
parentheses. -/
theorem formatValue_rendering :
    (∀ s : String, formatValue (.vstr s) = squote ++ escapeString s ++ squote) ∧
    (∀ s : String, (escapeString s).data
      = s.data.flatMap (fun ch => if ch = squoteChar then [squoteChar, squoteChar] else [ch])) ∧
    (formatValue (.vstr ("O" ++ squote ++ "Brien"))
      = squote ++ "O" ++ squote ++ squote ++ "Brien" ++ squote) ∧
    (∀ n : Int, formatValue (.vnum n) = toString n) ∧
    (∀ bl : Bool, formatValue (.vbool bl) = if bl then "true" else "false") ∧
    (formatValue .vnull = "NULL") ∧
    (formatValue (.vstrArr []) = "()") ∧
    (formatValue (.vnumArr []) = "()") ∧
    (∀ (x : String) (xs : List String), formatValue (.vstrArr (x :: xs))
      = "(" ++ joinWith "," ((x :: xs).map (fun v => squote ++ escapeString v ++ squote)) ++ ")") ∧
    (∀ (x : Int) (xs : List Int), formatValue (.vnumArr (x :: xs))
      = "(" ++ joinWith "," ((x :: xs).map (fun v => toString v)) ++ ")") ∧
    (formatValue (.vstrArr ["a", "b"])
      = "(" ++ squote ++ "a" ++ squote ++ "," ++ squote ++ "b" ++ squote ++ ")") ∧
    (formatValue (.vnumArr [1, 2, 3]) = "(1,2,3)") := by
  refine ⟨fun s => rfl, fun s => rfl, by decide, fun n => rfl, fun bl => rfl, rfl, rfl, rfl,
    ?_, ?_, by decide, by decide⟩
  · intro x xs
    simp [formatValue]
  · intro x xs
    simp [formatValue]

/-- Claim C1 counterexample: `andWhere` with operator `=` and a null value
does not rewrite to IS NULL — the condition is recorded with operator `=`
and renders as `x = NULL`, not `x IS NULL`. -/
theorem andWhere_null_not_rewritten :
    QueryBuilder.empty.andWhere "x" "=" .vnull =
      .ok { whereConditions :=
        [{ column := "x", operator := "=", value := .vnull, logicalOperator := "AND" }] } ∧
    QueryBuilder.build
      { whereConditions :=
        [{ column := "x", operator := "=", value := .vnull, logicalOperator := "AND" }] }
      = .ok { pWhere := some "x = NULL" } ∧
    ("x = NULL" : String) ≠ "x IS NULL" ∧ ("=" : String) ≠ "IS NULL" :=
  ⟨rfl, rfl, by decide, by decide⟩

/-- Claim C1 amended: only `where` rewrites operator `=` (resp. `!=`) with a
null value to IS NULL (resp. IS NOT NULL), rendering `<column> IS NULL` /
`<column> IS NOT NULL` with no value token; `andWhere` and `orWhere` record
the operator unchanged, so with `=` and null they render `<column> = NULL`. -/
theorem null_rewrite_only_in_where (b : QueryBuilder) (c : String) :
    (b.«where» c "=" .vnull = .ok { b with whereConditions := b.whereConditions ++
      [{ column := c, operator := "IS NULL", value := .vnull, logicalOperator := "AND" }] }) ∧
    (b.«where» c "!=" .vnull = .ok { b with whereConditions := b.whereConditions ++
      [{ column := c, operator := "IS NOT NULL", value := .vnull, logicalOperator := "AND" }] }) ∧
    (b.andWhere c "=" .vnull = .ok { b with whereConditions := b.whereConditions ++
      [{ column := c, operator := "=", value := .vnull, logicalOperator := "AND" }] }) ∧
    (b.orWhere c "=" .vnull = .ok { b with whereConditions := b.whereConditions ++
      [{ column := c, operator := "=", value := .vnull, logicalOperator := "OR" }] }) ∧
    (b.andWhere c "!=" .vnull = .ok { b with whereConditions := b.whereConditions ++
      [{ column := c, operator := "!=", value := .vnull, logicalOperator := "AND" }] }) ∧
    (b.orWhere c "!=" .vnull = .ok { b with whereConditions := b.whereConditions ++
      [{ column := c, operator := "!=", value := .vnull, logicalOperator := "OR" }] }) ∧
    (renderWhereCondition
      { column := c, operator := "IS NULL", value := .vnull, logicalOperator := "AND" }
      = .ok (c ++ " IS NULL")) ∧
    (renderWhereCondition
      { column := c, operator := "IS NOT NULL", value := .vnull, logicalOperator := "AND" }
      = .ok (c ++ " IS NOT NULL")) ∧
    (renderWhereCondition
      { column := c, operator := "=", value := .vnull, logicalOperator := "AND" }
      = .ok (c ++ " = NULL")) := by
  refine ⟨?_, ?_, andWhere_ok b c "=" .vnull (by decide), orWhere_ok b c "=" .vnull (by decide),
    andWhere_ok b c "!=" .vnull (by decide), orWhere_ok b c "!=" .vnull (by decide), ?_, ?_, ?_⟩
  · rw [where_ok b c "=" .vnull (by decide)]
    simp
  · rw [where_ok b c "!=" .vnull (by decide)]
    simp
  · have hlit : (" " ++ "IS NULL" : String) = " IS NULL" := rfl
    simp [renderWhereCondition, String.append_assoc, hlit]
  · have hlit : (" " ++ "IS NOT NULL" : String) = " IS NOT NULL" := rfl
    simp [renderWhereCondition, String.append_assoc, hlit]
  · have hlit : (" " ++ ("=" ++ (" " ++ "NULL")) : String) = " = NULL" := rfl
    simp [renderWhereCondition, formatWhereValue, formatValue, String.append_assoc, hlit]

/-- Claim C2 counterexample: `whereRaw` with the empty string is not
inserted verbatim — the truthiness test `condition.isRaw &&
condition.rawCondition` fails for `""`, so the structured fallback renders
the placeholder fields as `" = NULL"` and `$where` is present with that
value rather than the raw empty contribution. -/
theorem whereRaw_empty_not_verbatim :
    (QueryBuilder.empty.whereRaw "").build = .ok { pWhere := some " = NULL" } ∧
    (" = NULL" : String) ≠ "" :=
  ⟨rfl, by decide⟩

/-- Claim C2 amended: for every non-empty string `s`, `whereRaw s`,
`andWhereRaw s` and `orWhereRaw s` append a condition whose rendered
contribution to the WHERE clause is exactly `s` verbatim, preceded by its
join token (AND for whereRaw/andWhereRaw, OR for orWhereRaw) when it is not
the first condition; the empty string instead hits the structured fallback
(see the counterexample). -/
theorem raw_condition_verbatim (b : QueryBuilder) (s : String) (hs : s ≠ "") :
    (b.whereConditions = [] →
      buildWhereClause (b.whereRaw s).whereConditions = .ok (some s) ∧
      buildWhereClause (b.andWhereRaw s).whereConditions = .ok (some s) ∧
      buildWhereClause (b.orWhereRaw s).whereConditions = .ok (some s)) ∧
    (∀ w, buildWhereClause b.whereConditions = .ok (some w) →
      buildWhereClause (b.whereRaw s).whereConditions = .ok (some (w ++ " AND " ++ s)) ∧
      buildWhereClause (b.andWhereRaw s).whereConditions = .ok (some (w ++ " AND " ++ s)) ∧
      buildWhereClause (b.orWhereRaw s).whereConditions = .ok (some (w ++ " OR " ++ s))) := by
  have hr : ∀ tok : String, renderWhereCondition
      { column := "", operator := "=", value := .vnull, logicalOperator := tok,
        isRaw := true, rawCondition := s } = .ok s := by
    intro tok
    simp [renderWhereCondition, hs]
  constructor
  · intro hemp
    refine ⟨?_, ?_, ?_⟩ <;>
      simp only [QueryBuilder.whereRaw, QueryBuilder.andWhereRaw, QueryBuilder.orWhereRaw,
        hemp, List.nil_append] <;>
      exact buildWhereClause_single _ _ (hr _)
  · intro w hw
    refine ⟨?_, ?_, ?_⟩ <;>
      simp only [QueryBuilder.whereRaw, QueryBuilder.andWhereRaw, QueryBuilder.orWhereRaw]
    · have h2 := buildWhereClause_snoc_ok b.whereConditions w _ s hw (hr "AND")
      rw [join_merge] at h2
      exact h2
    · have h2 := buildWhereClause_snoc_ok b.whereConditions w _ s hw (hr "AND")
      rw [join_merge] at h2
      exact h2
    · have h2 := buildWhereClause_snoc_ok b.whereConditions w _ s hw (hr "OR")
      rw [join_merge] at h2
      exact h2

/-- Witness for C2: the non-empty raw string `x=1` renders verbatim as the
sole condition, and OR-joined after an existing condition. -/
theorem raw_condition_verbatim_witness :
    ("x=1" : String) ≠ "" ∧
    buildWhereClause (QueryBuilder.empty.whereRaw "x=1").whereConditions = .ok (some "x=1") ∧
    buildWhereClause
      (QueryBuilder.orWhereRaw
        { whereConditions :=
          [{ column := "a", operator := ">", value := .vnum 1, logicalOperator := "AND" }] }
        "x=1").whereConditions
      = .ok (some "a > 1 OR x=1") :=
  ⟨by decide,
   ((raw_condition_verbatim QueryBuilder.empty "x=1" (by decide)).1 rfl).1,
   ((raw_condition_verbatim
      { whereConditions :=
        [{ column := "a", operator := ">", value := .vnum 1, logicalOperator := "AND" }] }
      "x=1" (by decide)).2 "a > 1" rfl).2.2⟩

/-- Claim C3 counterexample: a raw condition whose string is empty is not
rendered as "the raw string" — after `where('a','=',1)`, appending
`andWhereRaw('')` renders `$where = "a = 1 AND  = NULL"` through the
structured fallback, while the claimed formula would give
`"a = 1 AND "`. -/
theorem whereClause_formula_fails_on_empty_raw :
    (match QueryBuilder.empty.«where» "a" "=" (.vnum 1) with
     | .error e => .error e
     | .ok b1 => (b1.andWhereRaw "").build : Except SodaError SoQLQueryParams)
      = .ok { pWhere := some "a = 1 AND  = NULL" } ∧
    buildWhereClauseSpec
      [{ column := "a", operator := "=", value := .vnum 1, logicalOperator := "AND" },
       { column := "", operator := "=", value := .vnull, logicalOperator := "AND",
         isRaw := true, rawCondition := "" }]
      = .ok (some "a = 1 AND ") ∧
    ("a = 1 AND  = NULL" : String) ≠ "a = 1 AND " :=
  ⟨rfl, rfl, by decide⟩

/-- Claim C3 amended: for every sequence of where conditions in which every
raw condition has a non-empty raw string, `buildWhereClause` renders
exactly the claimed formula (append order, `<column> <operator>
<formattedValue>` with the value omitted for IS NULL / IS NOT NULL, the
raw string for raw conditions, the recorded join token before every
condition after the first, all joined by single spaces); a raw condition
with an empty string instead falls back to the structured rendering.  The
closed conjunct is the claimed example. -/
theorem whereClause_rendering (conds : List WhereCondition)
    (h : ∀ c ∈ conds, c.isRaw = true → c.rawCondition ≠ "") :
    buildWhereClause conds = buildWhereClauseSpec conds ∧
    (match QueryBuilder.empty.«where» "age" ">" (.vnum 30) with
     | .error e => .error e
     | .ok b1 =>
       match b1.orWhere "status" "=" (.vstr "active") with
       | .error e => .error e
       | .ok b2 => b2.build : Except SodaError SoQLQueryParams)
      = .ok { pWhere := some ("age > 30 OR status = " ++ squote ++ "active" ++ squote) } :=
  ⟨buildWhereClause_eq_spec conds h, rfl⟩

/-- Witness for C3: the loop rendering agrees with the claimed formula on
the two-condition example `age > 30 OR status = (quoted) active`. -/
theorem whereClause_rendering_witness :
    buildWhereClause
      [{ column := "age", operator := ">", value := .vnum 30, logicalOperator := "AND" },
       { column := "status", operator := "=", value := .vstr "active", logicalOperator := "OR" }]
      = buildWhereClauseSpec
      [{ column := "age", operator := ">", value := .vnum 30, logicalOperator := "AND" },
       { column := "status", operator := "=", value := .vstr "active", logicalOperator := "OR" }] :=
  (whereClause_rendering
    [{ column := "age", operator := ">", value := .vnum 30, logicalOperator := "AND" },
     { column := "status", operator := "=", value := .vstr "active", logicalOperator := "OR" }]
    (by decide)).1

/-- Claim C5 (confirmed): pairing `IN` with a non-sequence value succeeds at
`where`/`andWhere`/`orWhere`/`having` (IN is in the closed operator set, and
the value is not inspected by the mutator), and the invalid-IN failure only
arises at render time: `formatWhereValue` rejects it, so `build()` (and
`execute()` on a bound builder) fail with that error. -/
theorem in_nonsequence_deferred (b : QueryBuilder) (col : String) (v : WhereValue)
    (hv : v.isSequence = false) :
    b.«where» col "IN" v = .ok { b with whereConditions := b.whereConditions ++
      [{ column := col, operator := "IN", value := v, logicalOperator := "AND" }] } ∧
    b.andWhere col "IN" v = .ok { b with whereConditions := b.whereConditions ++
      [{ column := col, operator := "IN", value := v, logicalOperator := "AND" }] } ∧
    b.orWhere col "IN" v = .ok { b with whereConditions := b.whereConditions ++
      [{ column := col, operator := "IN", value := v, logicalOperator := "OR" }] } ∧
    b.having col "IN" v = .ok { b with havingConditions := b.havingConditions ++
      [{ column := col, operator := "IN", value := v, logicalOperator := "AND" }] } ∧
    formatWhereValue "IN" v = .error .invalidInValue ∧
    (∀ w, buildWhereClause b.whereConditions = .ok w →
      QueryBuilder.build { b with whereConditions := b.whereConditions ++
        [{ column := col, operator := "IN", value := v, logicalOperator := "AND" }] }
        = .error .invalidInValue ∧
      ∀ (f : SodaTransport) (r : String),
        (QueryBuilder.bind { b with whereConditions := b.whereConditions ++
          [{ column := col, operator := "IN", value := v, logicalOperator := "AND" }] } f r).execute
          = .error .invalidInValue) := by
  have hfmt : formatWhereValue "IN" v = .error .invalidInValue := by
    simp [formatWhereValue, hv]
  have hrender : renderWhereCondition
      { column := col, operator := "IN", value := v, logicalOperator := "AND" }
      = .error .invalidInValue := by
    simp [renderWhereCondition, hfmt]
  refine ⟨?_, andWhere_ok b col "IN" v (by decide), orWhere_ok b col "IN" v (by decide),
    having_ok b col "IN" v (by decide), hfmt, ?_⟩
  · rw [where_ok b col "IN" v (by decide)]
    simp
  · intro w hw
    have hclause := buildWhereClause_snoc_err b.whereConditions w _ .invalidInValue hw hrender
    have hbuild : QueryBuilder.build { b with whereConditions := b.whereConditions ++
        [{ column := col, operator := "IN", value := v, logicalOperator := "AND" }] }
        = .error .invalidInValue := by
      apply build_where_error
      exact hclause
    refine ⟨hbuild, ?_⟩
    intro f r
    rw [execute_bound, hbuild]

/-- Witness for C5: `where('status','IN','x')` succeeds and the failure
appears at `build()`. -/
theorem in_nonsequence_deferred_witness :
    (WhereValue.vstr "x").isSequence = false ∧
    QueryBuilder.empty.«where» "status" "IN" (.vstr "x") = .ok
      { whereConditions :=
        [{ column := "status", operator := "IN", value := .vstr "x", logicalOperator := "AND" }] } ∧
    QueryBuilder.build
      { whereConditions :=
        [{ column := "status", operator := "IN", value := .vstr "x", logicalOperator := "AND" }] }
      = .error .invalidInValue :=
  ⟨rfl,
   (in_nonsequence_deferred QueryBuilder.empty "status" (.vstr "x") rfl).1,
   ((in_nonsequence_deferred QueryBuilder.empty "status" (.vstr "x") rfl).2.2.2.2.2
      none rfl).1⟩

/-- Claim C6 (confirmed): an operator outside the closed set makes every
where/having mutator fail synchronously with the invalid-operator error,
and a direction that is non-empty and does not lower-case to asc/desc makes
`orderBy` fail with the invalid-direction error; in each case no updated
builder is produced (the source throws before mutating), so a subsequent
`build()` sees the prior state unchanged. -/
theorem invalid_inputs_rejected (b : QueryBuilder) (col op : String) (v : WhereValue)
    (c d : String) :
    (validateOperator op = false →
      b.«where» col op v = .error (.invalidOperator op) ∧
      b.andWhere col op v = .error (.invalidOperator op) ∧
      b.orWhere col op v = .error (.invalidOperator op) ∧
      b.having col op v = .error (.invalidOperator op) ∧
      b.andHaving col op v = .error (.invalidOperator op) ∧
      b.orHaving col op v = .error (.invalidOperator op)) ∧
    (d ≠ "" → toLowerString d ≠ "asc" → toLowerString d ≠ "desc" →
      b.orderBy c (some d) = .error (.invalidDirection d)) := by
  constructor
  · intro h
    refine ⟨?_, ?_, ?_, ?_, ?_, ?_⟩ <;>
      simp [QueryBuilder.«where», QueryBuilder.andWhere, QueryBuilder.orWhere,
        QueryBuilder.having, QueryBuilder.andHaving, QueryBuilder.orHaving, h]
  · intro h1 h2 h3
    simp [QueryBuilder.orderBy, normalizeOrderDirection, h1, h2, h3]

/-- Witness for C6: the unsupported operator `<>` and direction `up` are
rejected. -/
theorem invalid_inputs_rejected_witness :
    validateOperator "<>" = false ∧
    QueryBuilder.empty.«where» "x" "<>" .vnull = .error (.invalidOperator "<>") ∧
    QueryBuilder.empty.orderBy "x" (some "up") = .error (.invalidDirection "up") :=
  ⟨by decide,
   ((invalid_inputs_rejected QueryBuilder.empty "x" "<>" .vnull "x" "up").1 (by decide)).1,
   (invalid_inputs_rejected QueryBuilder.empty "x" "<>" .vnull "x" "up").2
     (by decide) (by decide) (by decide)⟩

/-- Claim C7 counterexample: the empty string is a provided direction that
does not case-normalize to asc or desc, yet `orderBy` accepts it (the
`!direction` truthiness test treats it like an omitted direction) and
records ASC instead of failing with the invalid-direction error. -/
theorem orderBy_accepts_empty_direction :
    QueryBuilder.empty.orderBy "x" (some "") =
      .ok { orderByConditions := [{ column := "x", direction := "ASC" }] } ∧
    toLowerString "" ≠ "asc" ∧ toLowerString "" ≠ "desc" :=
  ⟨rfl, by decide, by decide⟩

/-- Claim C7 amended: `orderBy` with the direction omitted or equal to the
empty string records ASC; every other provided direction is accepted
exactly when it lower-cases to asc or desc (recorded uppercase) and
rejected with the invalid-direction error otherwise; successive calls
accumulate and render comma-joined in call order. -/
theorem orderBy_normalization (b : QueryBuilder) (c d : String) :
    (b.orderBy c none = .ok { b with orderByConditions := b.orderByConditions ++
      [{ column := c, direction := "ASC" }] }) ∧
    (b.orderBy c (some "") = .ok { b with orderByConditions := b.orderByConditions ++
      [{ column := c, direction := "ASC" }] }) ∧
    (d ≠ "" → toLowerString d = "asc" →
      b.orderBy c (some d) = .ok { b with orderByConditions := b.orderByConditions ++
        [{ column := c, direction := "ASC" }] }) ∧
    (d ≠ "" → toLowerString d = "desc" →
      b.orderBy c (some d) = .ok { b with orderByConditions := b.orderByConditions ++
        [{ column := c, direction := "DESC" }] }) ∧
    (d ≠ "" → toLowerString d ≠ "asc" → toLowerString d ≠ "desc" →
      b.orderBy c (some d) = .error (.invalidDirection d)) ∧
    ((match QueryBuilder.empty.orderBy "name" none with
      | .error e => .error e
      | .ok b1 =>
        match b1.orderBy "age" (some "desc") with
        | .error e => .error e
        | .ok b2 => b2.build : Except SodaError SoQLQueryParams)
      = .ok { pOrder := some "name ASC,age DESC" }) := by
  refine ⟨rfl, ?_, ?_, ?_, ?_, rfl⟩
  · simp [QueryBuilder.orderBy, normalizeOrderDirection]
  · intro h1 h2
    simp [QueryBuilder.orderBy, normalizeOrderDirection, h1, h2]
  · intro h1 h2
    simp [QueryBuilder.orderBy, normalizeOrderDirection, h1, h2]
  · intro h1 h2 h3
    simp [QueryBuilder.orderBy, normalizeOrderDirection, h1, h2, h3]

/-- Witness for C7: the mixed-case direction `DeSc` is accepted as DESC and
the bogus direction `bogus` is rejected. -/
theorem orderBy_normalization_witness :
    ("DeSc" : String) ≠ "" ∧ toLowerString "DeSc" = "desc" ∧
    QueryBuilder.empty.orderBy "age" (some "DeSc") =
      .ok { orderByConditions := [{ column := "age", direction := "DESC" }] } ∧
    QueryBuilder.empty.orderBy "age" (some "bogus") = .error (.invalidDirection "bogus") :=
  ⟨by decide, by decide,
   (orderBy_normalization QueryBuilder.empty "age" "DeSc").2.2.2.1 (by decide) (by decide),
   (orderBy_normalization QueryBuilder.empty "age" "bogus").2.2.2.2.1
     (by decide) (by decide) (by decide)⟩

/-- Claim C8 (confirmed): output keys track defined/non-empty state — the
empty builder renders to the empty mapping, `select([])` and `groupBy([])`
clear their field so the key is absent, and `limit(0)` / `offset(0)` are
stored and rendered as present zeros, distinguishable from the unset
absent-key case. -/
theorem build_key_presence (b : QueryBuilder) (p : SoQLQueryParams) :
    (QueryBuilder.empty.build = .ok {}) ∧
    ((b.select (.arr [])).selectFields = none) ∧
    ((b.groupBy (.arr [])).groupByFields = none) ∧
    ((b.limit 0).limitValue = some 0) ∧
    ((b.offset 0).offsetValue = some 0) ∧
    (b.build = .ok p → p.pLimit = b.limitValue ∧ p.pOffset = b.offsetValue ∧
      (b.selectFields = none → p.pSelect = none) ∧
      (b.groupByFields = none → p.pGroup = none)) ∧
    (((QueryBuilder.empty.limit 0).offset 0).build = .ok { pLimit := some 0, pOffset := some 0 }) ∧
    ((QueryBuilder.empty.select (.arr [])).build = .ok {}) ∧
    ((QueryBuilder.empty.groupBy (.arr [])).build = .ok {}) := by
  refine ⟨rfl, rfl, rfl, rfl, rfl, ?_, rfl, rfl, rfl⟩
  intro h
  obtain ⟨hsel, hgrp, hlim, hoff, -, -, -, -⟩ := build_ok_elim b p h
  refine ⟨hlim, hoff, ?_, ?_⟩
  · intro hn
    rw [hsel, hn]
    rfl
  · intro hn
    rw [hgrp, hn]
    rfl

/-- Witness for C8: a builder with only `limit(0)` renders the key present
with value 0, equal to the stored state. -/
theorem build_key_presence_witness :
    (QueryBuilder.empty.limit 0).build = .ok ({ pLimit := some 0 } : SoQLQueryParams) ∧
    ({ pLimit := some 0 } : SoQLQueryParams).pLimit = (QueryBuilder.empty.limit 0).limitValue :=
  ⟨rfl,
   ((build_key_presence (QueryBuilder.empty.limit 0) { pLimit := some 0 }).2.2.2.2.2.1 rfl).1⟩

/-- Claim C9 (confirmed): `execute()` on an unbound builder fails with the
not-bound error — the binding is checked before `build()` or the transport
is consulted, so this holds whatever `build()` would do — and on a bound
builder it renders via `build()` and delegates the parameters and the bound
resource identifier to the client, returning its result unchanged. -/
theorem execute_binding (b : QueryBuilder) (f : SodaTransport) (r : String)
    (p : SoQLQueryParams) :
    (b.clientBinding = none → b.execute = .error .notBound) ∧
    (b.clientBinding = some (f, r) → b.build = .ok p → b.execute = f r p) ∧
    ((b.bind f r).clientBinding = some (f, r)) := by
  refine ⟨?_, ?_, rfl⟩
  · intro h
    unfold QueryBuilder.execute
    rw [h]
  · intro h hb
    unfold QueryBuilder.execute
    rw [h, hb]

/-- Witness for C9: the empty builder is unbound and fails with the
not-bound error; so does an unbound builder whose `build()` would fail,
showing the binding check comes first; a bound builder delegates to the
transport. -/
theorem execute_binding_witness :
    QueryBuilder.empty.execute = .error .notBound ∧
    QueryBuilder.build
      { whereConditions :=
        [{ column := "c", operator := "IN", value := .vstr "x", logicalOperator := "AND" }] }
      = .error .invalidInValue ∧
    QueryBuilder.execute
      { whereConditions :=
        [{ column := "c", operator := "IN", value := .vstr "x", logicalOperator := "AND" }] }
      = .error .notBound ∧
    (QueryBuilder.empty.bind (fun _ _ => .ok { data := [] }) "res").execute
      = (fun _ _ => (.ok { data := [] } : Except SodaError SodaResponse)) "res"
          ({} : SoQLQueryParams) :=
  ⟨(execute_binding QueryBuilder.empty (fun _ _ => .ok { data := [] }) "res" {}).1 rfl,
   rfl,
   (execute_binding
      { whereConditions :=
        [{ column := "c", operator := "IN", value := .vstr "x", logicalOperator := "AND" }] }
      (fun _ _ => .ok { data := [] }) "res" {}).1 rfl,
   (execute_binding (QueryBuilder.empty.bind (fun _ _ => .ok { data := [] }) "res")
      (fun _ _ => .ok { data := [] }) "res" {}).2.1 rfl rfl⟩

/-- Claim C10 (confirmed): the non-empty-value guarantee is asymmetric —
whenever `build()` succeeds, the where/order/group/having keys are never
present with the empty string (each goes through the truthiness guard), but
`select` with a single string always stores the one-element array, so
`select(the empty string)` renders the select key present and empty. -/
theorem select_empty_string_asymmetry (b : QueryBuilder) (p : SoQLQueryParams) (s : String) :
    ((QueryBuilder.empty.select (.str "")).build = .ok { pSelect := some "" }) ∧
    ((b.select (.str s)).selectFields = some [s]) ∧
    (b.build = .ok p →
      p.pWhere ≠ some "" ∧ p.pOrder ≠ some "" ∧ p.pGroup ≠ some "" ∧ p.pHaving ≠ some "") := by
  refine ⟨rfl, rfl, ?_⟩
  intro h
  obtain ⟨-, -, -, -, hw, ho, hg, hh⟩ := build_ok_elim b p h
  exact ⟨hw, ho, hg, hh⟩

/-- Witness for C10: the empty builder builds successfully and its where
key is not the empty string (it is absent). -/
theorem select_empty_string_asymmetry_witness :
    QueryBuilder.empty.build = .ok ({} : SoQLQueryParams) ∧
    ({} : SoQLQueryParams).pWhere ≠ some "" :=
  ⟨rfl, ((select_empty_string_asymmetry QueryBuilder.empty {} "").2.2 rfl).1⟩
